import Mathlib

/-!
Verification development for the ebook-to-text conversion engine.

The Python sources are embedded shallowly: strings become `String`
(manipulated through their `List Char` data), dictionaries with
optional keys become structures with `Option` fields, exceptions
become `Option`/`none` results, and generators become lists of the
yielded chunks.  Every definition is translated from the repository
sources; the few helpers the sources import from a module that is
not part of the snapshot are modelled from the specification and say
so in their doc comment.
-/

/-- Python whitespace test used by `str.split` and the bare
`strip`/`lstrip`/`rstrip` (ASCII range, which the sources rely on). -/
def isSpaceChar (c : Char) : Bool :=
  c == ' ' || c == '\t' || c == '\n' || c == '\r' || c == '\x0b' || c == '\x0c'

/-- Lower-case a string character by character, as `str.lower` does on
the ASCII inputs the sources handle. -/
def pyLower (s : String) : String :=
  String.mk (s.data.map Char.toLower)

/-- Upper-case a string character by character, as `str.upper` does on
the ASCII inputs the sources handle. -/
def pyUpper (s : String) : String :=
  String.mk (s.data.map Char.toUpper)

/-- Boolean list-prefix test, the core of `str.startswith`. -/
def isPrefixL : List Char → List Char → Bool
  | [], _ => true
  | _ :: _, [] => false
  | a :: as, b :: bs => a == b && isPrefixL as bs

/-- Python `s.startswith(t)`. -/
def pyStartsWith (s t : String) : Bool :=
  isPrefixL t.data s.data

/-- Python `s.endswith(t)`. -/
def pyEndsWith (s t : String) : Bool :=
  isPrefixL t.data.reverse s.data.reverse

/-- Python `t in s` substring containment. -/
def containsSub (needle : List Char) : List Char → Bool
  | [] => isPrefixL needle []
  | c :: rest => isPrefixL needle (c :: rest) || containsSub needle rest

/-- Python `needle in haystack` on strings. -/
def pyContains (haystack needle : String) : Bool :=
  containsSub needle.data haystack.data

/-- Python `s.lstrip(chars)`: drop leading characters belonging to the
character set of `chars`. -/
def pyLstripSet (s chars : String) : String :=
  String.mk (s.data.dropWhile (fun c => chars.data.contains c))

/-- Python `s.strip()` (whitespace on both ends). -/
def pyStrip (s : String) : String :=
  String.mk (((s.data.dropWhile isSpaceChar).reverse.dropWhile isSpaceChar).reverse)

/-- Python `s.rstrip()` (trailing whitespace). -/
def pyRstrip (s : String) : String :=
  String.mk ((s.data.reverse.dropWhile isSpaceChar).reverse)

/-- Python `s.strip("\r\n").lstrip()` as used on each PDF line. -/
def stripLine (l : List Char) : List Char :=
  let stripped :=
    ((l.dropWhile (fun c => c == '\r' || c == '\n')).reverse.dropWhile
      (fun c => c == '\r' || c == '\n')).reverse
  stripped.dropWhile isSpaceChar

/-- Accumulator-based word splitter behind `splitWS`. -/
def splitWSAux : List Char → List Char → List (List Char)
  | [], acc => if acc.isEmpty then [] else [acc.reverse]
  | c :: rest, acc =>
    if isSpaceChar c then
      if acc.isEmpty then splitWSAux rest [] else acc.reverse :: splitWSAux rest []
    else splitWSAux rest (c :: acc)

/-- Python `s.split()` (no argument): split on whitespace runs,
dropping empty pieces. -/
def splitWS (l : List Char) : List (List Char) :=
  splitWSAux l []

/-- Python `s.isdigit()` for the ASCII inputs in play. -/
def pyIsdigit (s : String) : Bool :=
  !s.data.isEmpty && s.data.all Char.isDigit

/- ### chapter_check.py (src/ebook_conversion/chapter_check.py) -/

/-- The fixed front/back-matter keyword set `NOT_CHAPTER`. -/
def NOT_CHAPTER : List String :=
  ["about", "acknowledgements", "afterward", "annotation", "appendix",
   "assessment", "backmatter", "bibliography", "colophon", "conclusion",
   "contents", "contributors", "copyright", "cover", "credits", "dedication",
   "division", "endnotes", "epigraph", "errata", "footnotes", "forward",
   "frontmatter", "glossary", "imprintur", "imprint", "index", "introduction",
   "landmarks", "list", "notice", "page", "preamble", "preface", "prologue",
   "question", "rear", "revision", "sign up", "table", "toc", "volume",
   "warning"]

/-- The `ROMAN_NUMERALS` value table; `none` for characters outside it. -/
def romanValue (c : Char) : Option Int :=
  if c = 'I' then some 1
  else if c = 'V' then some 5
  else if c = 'X' then some 10
  else if c = 'L' then some 50
  else if c = 'C' then some 100
  else if c = 'D' then some 500
  else if c = 'M' then some 1000
  else none

/-- The update `consecutive_count = consecutive_count + 1 if
char == previous_char else 1`. -/
def nextCount (previous_char : Option Char) (c : Char)
    (consecutive_count : Nat) : Nat :=
  if previous_char = some c then consecutive_count + 1 else 1

/-- The right-to-left accumulation loop of `roman_to_int`.  Arguments
mirror the Python locals `total`, `prev_value`, `consecutive_count`
and `previous_char`; a raised `ValueError` becomes `none`. -/
def romanLoop : List Char → Int → Int → Nat → Option Char → Option Int
  | [], total, _, _, _ => if total = 0 then none else some total
  | c :: rest, total, prev_value, consecutive_count, previous_char =>
    match romanValue c with
    | none => none
    | some value =>
      if nextCount previous_char c consecutive_count > 3 then none
      else if prev_value ≤ value then
        romanLoop rest (total + value) value
          (nextCount previous_char c consecutive_count) (some c)
      else
        match previous_char with
        | none => none
        | some pc =>
          if (pc = 'V' ∨ pc = 'X') ∧ ¬c = 'I' then none
          else if (pc = 'L' ∨ pc = 'C') ∧ ¬c = 'X' then none
          else if (pc = 'D' ∨ pc = 'M') ∧ ¬c = 'C' then none
          else
            romanLoop rest (total - value) value
              (nextCount previous_char c consecutive_count) (some c)

/-- `roman_to_int`: upper-case the input, reject a repeated V, L or D,
then run the right-to-left loop; `ValueError` becomes `none`. -/
def roman_to_int (roman_num : String) : Option Int :=
  if 1 < (pyUpper roman_num).data.count 'V'
      ∨ 1 < (pyUpper roman_num).data.count 'L'
      ∨ 1 < (pyUpper roman_num).data.count 'D' then none
  else romanLoop (pyUpper roman_num).data.reverse 0 0 1 none

/-- The `num_words` vocabulary of `word_to_num`, exactly as in the
source (note the bare `teen` entry and the absence of fourteen
through nineteen). -/
def numWords : List (List Char × Nat) :=
  [("zero".data, 0), ("one".data, 1), ("two".data, 2), ("three".data, 3),
   ("four".data, 4), ("five".data, 5), ("six".data, 6), ("seven".data, 7),
   ("eight".data, 8), ("nine".data, 9), ("ten".data, 10), ("teen".data, 10),
   ("eleven".data, 11), ("twelve".data, 12), ("thirteen".data, 13),
   ("twenty".data, 20), ("thirty".data, 30), ("forty".data, 40),
   ("fifty".data, 50), ("sixty".data, 60), ("seventy".data, 70),
   ("eighty".data, 80), ("ninety".data, 90)]

/-- The reversed scan of `word_to_num`: build up `temp_word` from the
right, add the vocabulary value on a match, fail on leftovers. -/
def wordLoop : List Char → List Char → Nat → Option Nat
  | [], temp_word, total => if temp_word.isEmpty then some total else none
  | c :: rest, temp_word, total =>
    let t := c :: temp_word
    match numWords.lookup t with
    | some v => wordLoop rest [] (total + v)
    | none => wordLoop rest t total

/-- `word_to_num`: reject the empty string, lower-case, remove hyphens
and spaces, then scan from the right; `ValueError` becomes `none`. -/
def word_to_num (number_string : String) : Option Nat :=
  if number_string.data.isEmpty then none
  else
    let s := (number_string.data.map Char.toLower).filter
      (fun c => !(c == '-') && !(c == ' '))
    wordLoop s.reverse [] 0

/-- `is_spelled_out_number`: `word_to_num` without the error. -/
def is_spelled_out_number (s : String) : Bool :=
  (word_to_num s).isSome

/-- `is_roman_numeral`: `roman_to_int` without the error. -/
def is_roman_numeral (word : String) : Bool :=
  (roman_to_int word).isSome

/-- `is_number`: digits, Roman numeral or spelled-out number. -/
def is_number (s : String) : Bool :=
  pyIsdigit s || is_roman_numeral s || is_spelled_out_number s

/-- `is_chapter`: the lower-cased text starts with "chapter", or it is
a single whitespace-delimited word that is a number. -/
def is_chapter (s : String) : Bool :=
  let lower_s := pyLower s
  pyStartsWith lower_s "chapter"
    || (decide ((splitWS lower_s.data).length = 1) && is_number lower_s)

/-- The `{title, author}` metadata dictionary; a missing key is `none`. -/
structure Metadata where
  title : Option String
  author : Option String

/-- `is_not_chapter` from `src/ebook_conversion/chapter_check.py`: a
missing title or author is replaced by the sentinel strings
"no title found" / "no author found" via `dict.get`, and the text is
matched against title, author and every keyword inside one `any`. -/
def is_not_chapter (paragraph : String) (metadata : Metadata) : Bool :=
  let title := metadata.title.getD "no title found"
  let author := metadata.author.getD "no author found"
  let p := pyLower paragraph
  NOT_CHAPTER.any (fun w =>
    pyStartsWith p (pyLower title) || pyStartsWith p (pyLower author)
      || pyStartsWith p w)

/-- Modelled from the spec: the package module `ebook2text/chapter_check.py`
imported by the converters is absent from the snapshot; section 4.1 of
the spec gives its `is_not_chapter` contract — true iff the case-folded
text starts with the case-folded title, the case-folded author, or a
front/back-matter keyword, with a missing title or author simply never
matching. -/
def spec_is_not_chapter (paragraph : String) (m : Metadata) : Bool :=
  let p := pyLower paragraph
  (match m.title with
   | some t => pyStartsWith p (pyLower t)
   | none => false)
  || (match m.author with
      | some a => pyStartsWith p (pyLower a)
      | none => false)
  || NOT_CHAPTER.any (fun w => pyStartsWith p w)

/- ### PDF line logic (src/ebook2text/pdf_conversion/_enums.py and
pdf_line_logic.py) -/

/-- The `LineType` enumeration. -/
inductive LineType where
  | UNINITIALIZED
  | HEADER
  | CHAPTER
  | NOT_CHAPTER
  | LINE
deriving DecidableEq, BEq

/-- The `LineAction` enumeration. -/
inductive LineAction where
  | UNINITIALIZED
  | FIRST_LINE
  | RETURN_EMPTY
  | CONTINUE
  | ADD_SEPARATOR
  | ADD_LINE
deriving DecidableEq, BEq

/-- `is_header`: the line starts or ends with the title or the author.
The source indexes `metadata["title"]` and `metadata["author"]`
directly, so a missing key raises `KeyError` (here `none`); Python
`or` short-circuits, so the author is only looked up when neither
title test matched. -/
def is_header (line : String) (metadata : Metadata) : Option Bool :=
  match metadata.title with
  | none => none
  | some title =>
    if pyStartsWith line title then some true
    else if pyEndsWith line title then some true
    else
      match metadata.author with
      | none => none
      | some author => some (pyStartsWith line author || pyEndsWith line author)

/-- `check_line` specialised to metadata that carries both keys (the
only situation the page machine is exercised in): header, then
chapter, then not-chapter, else ordinary line.  The chapter tests come
from the missing `ebook2text/chapter_check.py`; `is_chapter` matches
the in-repo variant and `spec_is_not_chapter` is modelled from the
spec. -/
def check_line (line : String) (title author : String) : LineType :=
  if pyStartsWith line title || pyEndsWith line title
      || pyStartsWith line author || pyEndsWith line author then
    LineType.HEADER
  else if is_chapter line then LineType.CHAPTER
  else if spec_is_not_chapter line ⟨some title, some author⟩ then
    LineType.NOT_CHAPTER
  else LineType.LINE

/-- The `comparisons` dictionary of `compare_lines`, as an association
list keyed by `(previous_line, current_line)`. -/
def comparisons : List ((LineType × LineType) × LineAction) :=
  [((LineType.UNINITIALIZED, LineType.CHAPTER), LineAction.FIRST_LINE),
   ((LineType.UNINITIALIZED, LineType.HEADER), LineAction.FIRST_LINE),
   ((LineType.UNINITIALIZED, LineType.NOT_CHAPTER), LineAction.FIRST_LINE),
   ((LineType.UNINITIALIZED, LineType.LINE), LineAction.ADD_LINE),
   ((LineType.HEADER, LineType.CHAPTER), LineAction.CONTINUE),
   ((LineType.CHAPTER, LineType.HEADER), LineAction.CONTINUE),
   ((LineType.NOT_CHAPTER, LineType.LINE), LineAction.RETURN_EMPTY),
   ((LineType.LINE, LineType.NOT_CHAPTER), LineAction.RETURN_EMPTY),
   ((LineType.CHAPTER, LineType.CHAPTER), LineAction.ADD_SEPARATOR),
   ((LineType.CHAPTER, LineType.LINE), LineAction.ADD_LINE),
   ((LineType.LINE, LineType.LINE), LineAction.ADD_LINE)]

/-- `compare_lines`: the override rule first, then the dictionary with
default `ADD_LINE`. -/
def compare_lines (previous_line current_line : LineType)
    (last_action : LineAction) : LineAction :=
  if last_action = LineAction.FIRST_LINE ∧ previous_line = LineType.CHAPTER
      ∧ current_line = LineType.LINE then
    LineAction.ADD_SEPARATOR
  else ((comparisons.lookup (previous_line, current_line)).getD LineAction.ADD_LINE)

/-- The transition table exactly as the claim states it, written as a
case table to compare against the dictionary-based source function. -/
def compare_lines_spec (previous_line current_line : LineType)
    (last_action : LineAction) : LineAction :=
  if last_action = LineAction.FIRST_LINE ∧ previous_line = LineType.CHAPTER
      ∧ current_line = LineType.LINE then
    LineAction.ADD_SEPARATOR
  else
    match previous_line, current_line with
    | LineType.UNINITIALIZED, LineType.CHAPTER => LineAction.FIRST_LINE
    | LineType.UNINITIALIZED, LineType.HEADER => LineAction.FIRST_LINE
    | LineType.UNINITIALIZED, LineType.NOT_CHAPTER => LineAction.FIRST_LINE
    | LineType.UNINITIALIZED, LineType.LINE => LineAction.ADD_LINE
    | LineType.HEADER, LineType.CHAPTER => LineAction.CONTINUE
    | LineType.CHAPTER, LineType.HEADER => LineAction.CONTINUE
    | LineType.NOT_CHAPTER, LineType.LINE => LineAction.RETURN_EMPTY
    | LineType.LINE, LineType.NOT_CHAPTER => LineAction.RETURN_EMPTY
    | LineType.CHAPTER, LineType.CHAPTER => LineAction.ADD_SEPARATOR
    | LineType.CHAPTER, LineType.LINE => LineAction.ADD_LINE
    | LineType.LINE, LineType.LINE => LineAction.ADD_LINE
    | _, _ => LineAction.ADD_LINE

/- ### Text normalisation (src/ebook2text/text_conversion.py) -/

/-- The character translation table of `desmarten_text`. -/
def desmartenChar (c : Char) : List Char :=
  if c = '‘' then ['\x27']
  else if c = '’' then ['\x27']
  else if c = '“' then ['"']
  else if c = '”' then ['"']
  else if c = '–' then ['-']
  else if c = '—' then ['-']
  else if c = '…' then ['.', '.', '.']
  else if c = '•' then ['*']
  else [c]

/-- `desmarten_text`: replace smart punctuation via the translation
table. -/
def desmarten_text (book_content : String) : String :=
  String.mk (book_content.data.map desmartenChar).flatten

/-- Collapse every maximal run of the character `c` to one occurrence,
the effect of the two regex substitutions in
`remove_extra_whitespace`. -/
def collapseRuns (c : Char) : List Char → List Char
  | [] => []
  | [a] => [a]
  | a :: b :: rest =>
    if a = c ∧ b = c then collapseRuns c (b :: rest)
    else a :: collapseRuns c (b :: rest)

/-- `remove_extra_whitespace`: newline runs to one newline, then runs
of two or more spaces to one space. -/
def remove_extra_whitespace (text : String) : String :=
  String.mk (collapseRuns ' ' (collapseRuns '\n' text.data))

/- ### PDF converter (src/ebook2text/pdf_conversion/pdf_converter.py) -/

/-- `_ends_with_punctuation`: after stripping trailing whitespace the
text ends with one of the `SENTENCE_PUNCTUATION` alternatives. -/
def ends_with_punctuation (text : String) : Bool :=
  let r := pyRstrip text
  pyEndsWith r "." || pyEndsWith r "!" || pyEndsWith r "?"
    || pyEndsWith r ".\"" || pyEndsWith r "!\"" || pyEndsWith r "?\""

/-- `_add_line_to_page`: append the line, with trailing whitespace
replaced by a newline when it ends a sentence. -/
def add_line_to_page (page : List String) (line : String) : List String :=
  if ends_with_punctuation line then page ++ [pyRstrip line ++ "\n"]
  else page ++ [line]

/-- `_split_line` (`line.split("\n")`), presented as the first piece
plus the remaining pieces so the non-empty shape is manifest. -/
def splitNL : List Char → List Char × List (List Char)
  | [] => ([], [])
  | c :: rest =>
    if c = '\n' then ([], (splitNL rest).1 :: (splitNL rest).2)
    else (c :: (splitNL rest).1, (splitNL rest).2)

/-- Size measure for the pending-lines queue of the page loop. -/
def lineMeasure (ls : List (List Char)) : Nat :=
  (ls.map (fun l => l.length + 1)).sum

/-- The line loop of `_process_page_text`.  The queue models the
in-place splice `page_lines[index:index+1] = split_lines`: the first
piece of the current entry is processed and the remaining pieces are
processed before the rest.  `none` models the `return ""` of the
`RETURN_EMPTY` short-circuit; otherwise the accumulated page buffer is
returned.  The `fuel` argument only makes the recursion structural:
each step removes at least one unit of `lineMeasure` from the queue
(see `splitNL_measure`), so with `fuel = lineMeasure queue`, as
`process_page_text` supplies it, the fuel-exhaustion branch is never
reached on a non-empty queue. -/
def processLines (title author : String) :
    Nat → List (List Char) → Nat → LineType → LineAction → List String →
      Option (List String)
  | _, [], _, _, _, page => some page
  | 0, _ :: _, _, _, _, page => some page
  | fuel + 1, l :: rest, checked, previous_line_value, last_action, page =>
    let line := String.mk (stripLine (splitNL l).1)
    let queue := (splitNL l).2 ++ rest
    if line = "" then
      processLines title author fuel queue checked previous_line_value
        last_action page
    else if checked < 6 then
      let line_value := check_line line title author
      let action := compare_lines previous_line_value line_value last_action
      match action with
      | LineAction.RETURN_EMPTY => none
      | LineAction.FIRST_LINE =>
        processLines title author fuel queue (checked + 1) line_value action page
      | LineAction.CONTINUE =>
        processLines title author fuel queue (checked + 1) line_value action page
      | LineAction.ADD_SEPARATOR =>
        processLines title author fuel queue (checked + 1) line_value action
          (add_line_to_page (page ++ ["***\n"]) line)
      | _ =>
        processLines title author fuel queue (checked + 1) line_value action
          (add_line_to_page page line)
    else
      processLines title author fuel queue checked previous_line_value
        last_action (add_line_to_page page line)

/-- `_process_page_text` on one page: run the loop from the
uninitialised state with an empty page buffer and join the buffer
(`RETURN_EMPTY` contributes the empty string). -/
def process_page_text (page_lines : List String) (title author : String) :
    String :=
  match processLines title author (lineMeasure (page_lines.map String.data))
      (page_lines.map String.data) 0
      LineType.UNINITIALIZED LineAction.UNINITIALIZED [] with
  | none => ""
  | some page => String.join page

/-- One `parse_file` iteration for a page: process, strip smart
punctuation, collapse whitespace.  (`parse_file` invokes these via the
`self.split_line` / `self._remove_extra_whitespace` attribute names;
the only matching definitions are `_split_line` and
`remove_extra_whitespace`, the obvious rename targets used here.) -/
def pdf_page_output (page_lines : List String) (title author : String) :
    String :=
  remove_extra_whitespace (desmarten_text (process_page_text page_lines title author))

/-- `_is_title_page`: fewer lines than `_max_lines_to_check` (6). -/
def is_title_page (page_lines : List String) : Bool :=
  page_lines.length < 6

/-- PDF `return_string`: join non-blank chunks and strip the
leading-character set of the separator `"***\n"`. -/
def pdf_return_string (chunks : List String) : String :=
  pyLstripSet (String.join (chunks.filter (fun line => !(pyStrip line == ""))))
    "***\n"

/-- PDF `_clean_before_write`: strip the separator character set only
when the output file does not exist yet. -/
def pdf_clean_before_write (text : String) (output_exists : Bool) : String :=
  if output_exists then text else pyLstripSet text "***\n"

/- ### DOCX converter (src/ebook2text/docx_conversion/docx_converter.py) -/

/-- A DOCX paragraph as the converter sees it: its extracted text and
whether its properties carry a page-break-before marker. -/
structure Para where
  text : String
  page_break : Bool

/-- `_check_index`: the paragraph index has reached the
`_max_lines_to_check` cap of 6. -/
def check_index (index : Nat) : Bool :=
  6 ≤ index

/-- `_is_start_of_chapter`: `is_chapter`, but never past the cap. -/
def is_start_of_chapter (text : String) (index : Nat) : Bool :=
  if check_index index then false else is_chapter text

/-- `_is_non_chapter`: `is_not_chapter`, but never past the cap.  The
chapter test comes from the missing `ebook2text/chapter_check.py`, so
the spec-modelled variant is used. -/
def is_non_chapter (m : Metadata) (text : String) (index : Nat) : Bool :=
  if check_index index then false else spec_is_not_chapter text m

/-- `_process_text`: returns the processed text, the updated paragraph
index and the updated `non_chapter` suppression flag (instance state
in the source). -/
def docx_process_text (m : Metadata) (non_chapter : Bool)
    (paragraph_text : String) (current_para_index : Nat) :
    String × Nat × Bool :=
  if is_start_of_chapter paragraph_text current_para_index then
    ("***", 0, false)
  else if is_non_chapter m paragraph_text current_para_index then
    ("", current_para_index, true)
  else if non_chapter then ("", current_para_index, non_chapter)
  else (desmarten_text paragraph_text, current_para_index, non_chapter)

/-- DOCX `parse_file`: iterate paragraphs, flushing the page buffer on
a page break (only when non-empty) and collecting the processed
paragraph texts; the result is the list of yielded page strings. -/
def docx_parse_file (m : Metadata) :
    List Para → List String → Nat → Bool → List String
  | [], current_page, _, _ =>
    if current_page.isEmpty then [] else [String.intercalate "\n" current_page]
  | p :: rest, current_page, current_para_index, non_chapter =>
    let idx0 := current_para_index + 1
    let flushed : List String :=
      if p.page_break ∧ ¬current_page.isEmpty then
        [String.intercalate "\n" current_page]
      else []
    let page1 := if p.page_break then [] else current_page
    let idx1 := if p.page_break then 0 else idx0
    if p.text = "" then
      flushed ++ docx_parse_file m rest page1 idx1 non_chapter
    else
      let r := docx_process_text m non_chapter p.text idx1
      flushed ++ docx_parse_file m rest
        (if r.1 = "" then page1 else page1 ++ [r.1]) r.2.1 r.2.2

/-- DOCX `return_string`: join non-blank chunks with newlines and strip
the leading-character set of the separator `"***"`. -/
def docx_return_string (chunks : List String) : String :=
  pyLstripSet
    (String.intercalate "\n" (chunks.filter (fun line => !(pyStrip line == ""))))
    "***"

/-- DOCX `_clean_before_write`: strip the separator character set only
when the output file does not exist yet. -/
def docx_clean_before_write (text : String) (output_exists : Bool) : String :=
  if output_exists then text else pyLstripSet text "***"

/- ### OCR bridge (src/ebook2text/ocr.py) -/

/-- What one OpenAI call can come back with: a message with content, a
response without choices or content (`NoResponseError` path), or a
raised exception. -/
inductive OcrResponse where
  | ok (content : String)
  | empty
  | failed

/-- The fixed refusal-phrase substrings `GPT_REFUSALS`. -/
def GPT_REFUSALS : List String :=
  ["I\x27m sorry", "I apologize", "I cannot", "text-based"]

/-- The refusal test `any(refusal in answer for refusal in GPT_REFUSALS)`. -/
def refusal_in (answer : String) : Bool :=
  GPT_REFUSALS.any (fun refusal => pyContains answer refusal)

/-- `clean_response`: drop the literal "No text found" reply and, as an
extra precaution, any refusal. -/
def clean_response (answer : String) : String :=
  if answer = "No text found" then ""
  else if refusal_in answer then ""
  else answer

/-- `run_ocr`, with the service abstracted as an oracle from the retry
counter to the response of that attempt.  An empty image list returns
the empty string before any oracle consultation; a refusal recurses
with `retry + 1` until `retry > 2`, where the raised `NoResponseError`
is caught by the surrounding handler and degrades to the empty string,
as do the no-choices and exception outcomes. -/
def runOcrStep (oracle : Nat → OcrResponse) (base64_images : List String) :
    Nat → Nat → String
  | 0, _ => ""
  | fuel + 1, retry =>
    if base64_images.isEmpty then ""
    else
      match oracle retry with
      | OcrResponse.ok answer =>
        if refusal_in answer then
          if retry > 2 then ""
          else runOcrStep oracle base64_images fuel (retry + 1)
        else clean_response answer
      | OcrResponse.empty => ""
      | OcrResponse.failed => ""

/-- `run_ocr` proper.  The recursion is made structural through a fuel
argument; a refusal recurses only while `retry ≤ 2`, so at most three
recursive calls happen from any starting value and fuel 4 is never
exhausted. -/
def run_ocr (oracle : Nat → OcrResponse) (base64_images : List String)
    (retry : Nat) : String :=
  runOcrStep oracle base64_images 4 retry

/-- The canonical subtractive pairs of the claim: I before V or X, X
before L or C, C before D or M. -/
def canonicalPair (x y : Char) : Prop :=
  (x = 'I' ∧ (y = 'V' ∨ y = 'X')) ∨ (x = 'X' ∧ (y = 'L' ∨ y = 'C'))
    ∨ (x = 'C' ∧ (y = 'D' ∨ y = 'M'))

instance (x y : Char) : Decidable (canonicalPair x y) := by
  unfold canonicalPair
  infer_instance

/-- The Roman alphabet of the claim. -/
def romanChars : List Char := ['I', 'V', 'X', 'L', 'C', 'D', 'M']

/- ### Helper lemmas -/

theorem lineMeasure_append (a b : List (List Char)) :
    lineMeasure (a ++ b) = lineMeasure a + lineMeasure b := by
  simp [lineMeasure]

theorem splitNL_measure (l : List Char) :
    (splitNL l).1.length + 1 + lineMeasure (splitNL l).2 = l.length + 1 := by
  induction l with
  | nil => simp [splitNL, lineMeasure]
  | cons c rest ih =>
    by_cases h : c = '\n'
    · simp [splitNL, h, lineMeasure] at ih ⊢
      omega
    · simp [splitNL, h, lineMeasure] at ih ⊢
      omega

/-- After `dropWhile` on membership in a character set, the result
cannot start with a character of that set. -/
theorem isPrefixL_dropWhile_contains (cs : List Char) (c : Char) (t l : List Char)
    (hc : cs.contains c = true) :
    isPrefixL (c :: t) (l.dropWhile (fun x => cs.contains x)) = false := by
  induction l with
  | nil => rfl
  | cons a rest ih =>
    rw [List.dropWhile_cons]
    by_cases h : cs.contains a = true
    · rw [if_pos h]
      exact ih
    · rw [if_neg h]
      have hne : (c == a) = false := by
        rw [beq_eq_false_iff_ne]
        intro hca
        subst hca
        exact h hc
      show (c == a && isPrefixL t rest) = false
      rw [hne, Bool.false_and]

/-- Pull a constant disjunct out of a `List.any` over a non-empty list. -/
theorem any_const_or (l : List String) (a : Bool) (f : String → Bool)
    (h : l ≠ []) :
    l.any (fun w => a || f w) = (a || l.any f) := by
  cases l with
  | nil => exact absurd rfl h
  | cons x xs => cases a <;> simp

/- ### Claim theorems -/

/-- Claim C1: for every pair of previous and current line classifications
and every last action, `compare_lines` returns the action given by the
fixed transition table, with every unlisted pair defaulting to
`ADD_LINE`, except that the override rule — last action `FIRST_LINE`,
previous classification `CHAPTER`, current classification `LINE`
forcing `ADD_SEPARATOR` — is checked first. -/
theorem compare_lines_matches_spec_table :
    ∀ (previous_line current_line : LineType) (last_action : LineAction),
      compare_lines previous_line current_line last_action
        = compare_lines_spec previous_line current_line last_action := by
  intro p c a
  cases p <;> cases c <;> cases a <;> rfl

/-- Claim C2: with metadata title "Sample Title" (the test metadata also
carries author "Sample Author"), the page whose lines are
"Sample Title", "Introduction", "Sample introduction text." contributes
the empty string (the NOT_CHAPTER signal short-circuits the page), and
the subsequent page "Chapter 1", "First chapter paragraph text."
produces exactly the chapter separator followed by the body text, so
the output contains the body text preceded by the separator and does
not contain the heading "Chapter 1". -/
theorem pdf_sample_pages_end_to_end :
    pdf_page_output ["Sample Title", "Introduction", "Sample introduction text."]
        "Sample Title" "Sample Author" = ""
    ∧ pdf_page_output ["Chapter 1", "First chapter paragraph text."]
        "Sample Title" "Sample Author" = "***\nFirst chapter paragraph text.\n"
    ∧ pyContains
        (pdf_page_output ["Chapter 1", "First chapter paragraph text."]
          "Sample Title" "Sample Author")
        "First chapter paragraph text." = true
    ∧ pyStartsWith
        (pdf_page_output ["Chapter 1", "First chapter paragraph text."]
          "Sample Title" "Sample Author")
        "***\n" = true
    ∧ pyContains
        (pdf_page_output ["Chapter 1", "First chapter paragraph text."]
          "Sample Title" "Sample Author")
        "Chapter 1" = false := by
  refine ⟨by decide, by decide, by decide, by decide, by decide⟩

/-- Claim C3 counterexample: the page "Chapter 1" /
"First chapter paragraph text." has fewer than six lines, so
`_is_title_page` classifies it as a title page, yet its text is not
suppressed: the converter still emits the separator and the body text,
contradicting the claim that such pages contribute nothing. -/
theorem short_page_not_suppressed_cex :
    is_title_page ["Chapter 1", "First chapter paragraph text."] = true
    ∧ ¬ pdf_page_output ["Chapter 1", "First chapter paragraph text."]
          "Sample Title" "Sample Author" = "" := by decide

/-- Claim C3 amended: `_is_title_page` classifies exactly the pages with
fewer than six lines as title pages, but `parse_file` never invokes it,
so the text of such a page is not suppressed — the two-line chapter
page still produces its full output. -/
theorem is_title_page_unused_in_parse :
    (∀ page_lines : List String,
      is_title_page page_lines = decide (page_lines.length < 6))
    ∧ pdf_page_output ["Chapter 1", "First chapter paragraph text."]
        "Sample Title" "Sample Author"
      = "***\nFirst chapter paragraph text.\n" := by
  exact ⟨fun _ => rfl, by decide⟩

/-- Claim C5 counterexample: after "Introduction" sets the suppression
flag, the paragraph "Body text after break." carries an explicit page
break and is ordinary body text (neither a chapter signal nor front or
back matter), yet it contributes nothing — the whole parse yields no
chunk — because the page break does not end the suppression, contrary
to the claim. -/
theorem page_break_keeps_suppression_cex :
    docx_parse_file ⟨some "Sample Title", some "Sample Author"⟩
        [⟨"Introduction", false⟩, ⟨"Body text after break.", true⟩] [] 0 false
      = []
    ∧ is_chapter "Body text after break." = false
    ∧ spec_is_not_chapter "Body text after break."
        ⟨some "Sample Title", some "Sample Author"⟩ = false := by decide

/-- Claim C5 amended: once a paragraph within the scan window is
classified not-a-chapter, every subsequent paragraph contributes no
text until the next chapter signal, which emits the separator and
resets the suppression flag; a paragraph carrying a page-break marker
resets the per-page index but not the suppression flag, so suppression
continues across page breaks.  The first conjunct characterises one
suppressed step, the second shows a chapter signal after a page break
ending suppression, the third shows plain text after a page break
remaining suppressed. -/
theorem suppression_until_chapter_signal :
    (∀ (m : Metadata) (text : String) (index : Nat),
      docx_process_text m true text index
        = if is_start_of_chapter text index then ("***", 0, false)
          else ("", index, true))
    ∧ docx_parse_file ⟨some "Sample Title", some "Sample Author"⟩
        [⟨"Introduction", false⟩, ⟨"Chapter 1", true⟩, ⟨"Back to text.", false⟩]
        [] 0 false
      = ["***\nBack to text."]
    ∧ docx_parse_file ⟨some "Sample Title", some "Sample Author"⟩
        [⟨"Introduction", false⟩, ⟨"Plain text.", true⟩,
         ⟨"More plain text.", false⟩] [] 0 false
      = [] := by
  refine ⟨?_, by decide, by decide⟩
  intro m text index
  unfold docx_process_text
  by_cases h : is_start_of_chapter text index
  · simp [h]
  · simp [h]

/-- Claim C7: `word_to_num` strips spaces and hyphens and scans against
the fixed vocabulary — "twentythree" gives 23 and "onehundred" fails —
but the claim that every English spelling of 0 through 99 is accepted
fails on the code: "thirteen", "fifteen" and "eighteen" are rejected
because the right-to-left scan consumes the "teen" suffix first and
leaves an unmatched remainder, although the docstring promises support
for 0 to 99 and the vocabulary even lists "thirteen". -/
theorem word_to_num_teen_gap :
    word_to_num "twentythree" = some 23
    ∧ word_to_num "onehundred" = none
    ∧ word_to_num "thirteen" = none
    ∧ word_to_num "fifteen" = none
    ∧ word_to_num "eighteen" = none
    ∧ word_to_num "fourteen" = some 14 := by decide

/-- Claim C8: converter output never begins with the chapter separator:
`return_string` (both converters) strips every leading separator
character from the joined result, and `_clean_before_write` strips it
exactly when the output file does not yet exist, leaving the text
untouched on appends to an existing file. -/
theorem leading_separator_stripping :
    (∀ chunks : List String,
      pyStartsWith (pdf_return_string chunks) "***" = false)
    ∧ (∀ chunks : List String,
      pyStartsWith (docx_return_string chunks) "***" = false)
    ∧ (∀ text : String, pdf_clean_before_write text true = text)
    ∧ (∀ text : String, docx_clean_before_write text true = text)
    ∧ (∀ text : String,
      pyStartsWith (pdf_clean_before_write text false) "***" = false)
    ∧ (∀ text : String,
      pyStartsWith (docx_clean_before_write text false) "***" = false) := by
  refine ⟨?_, ?_, fun _ => rfl, fun _ => rfl, ?_, ?_⟩
  · intro chunks
    exact isPrefixL_dropWhile_contains "***\n".data '*' ['*', '*'] _ (by decide)
  · intro chunks
    exact isPrefixL_dropWhile_contains "***".data '*' ['*', '*'] _ (by decide)
  · intro text
    exact isPrefixL_dropWhile_contains "***\n".data '*' ['*', '*'] _ (by decide)
  · intro text
    exact isPrefixL_dropWhile_contains "***".data '*' ['*', '*'] _ (by decide)

/-- Claim C4 counterexample: with both metadata entries missing,
`is_not_chapter` still returns true on a text that starts with no
front/back-matter keyword — the substituted placeholder
"no title found" matches it — and the PDF `is_header` raises a
`KeyError` (`none`) instead of degrading, contradicting both halves of
the claim. -/
theorem missing_metadata_placeholder_cex :
    is_not_chapter "No title found in my copy" ⟨none, none⟩ = true
    ∧ NOT_CHAPTER.all
        (fun w => !(pyStartsWith (pyLower "No title found in my copy") w)) = true
    ∧ is_header "Chapter 1" ⟨none, none⟩ = none := by decide

/-- Claim C4 amended: a missing title or author is replaced by the
sentinel strings "no title found" / "no author found", so
`is_not_chapter` with empty metadata is the keyword check extended by
exactly those two sentinel-prefix tests; the PDF `is_header` does not
degrade but raises `KeyError` (`none`) as soon as a missing key is
read — immediately for a missing title, and for a missing author
whenever the title tests did not already succeed. -/
theorem missing_metadata_sentinel_behavior :
    (∀ paragraph : String,
      is_not_chapter paragraph ⟨none, none⟩
        = (pyStartsWith (pyLower paragraph) "no title found"
            || pyStartsWith (pyLower paragraph) "no author found"
            || NOT_CHAPTER.any (fun w => pyStartsWith (pyLower paragraph) w)))
    ∧ (∀ (line : String) (author : Option String),
        is_header line ⟨none, author⟩ = none)
    ∧ (∀ (line title : String),
        is_header line ⟨some title, none⟩
          = if pyStartsWith line title || pyEndsWith line title then some true
            else none) := by
  refine ⟨?_, fun _ _ => rfl, ?_⟩
  · intro paragraph
    show NOT_CHAPTER.any (fun w =>
        pyStartsWith (pyLower paragraph) (pyLower "no title found")
          || pyStartsWith (pyLower paragraph) (pyLower "no author found")
          || pyStartsWith (pyLower paragraph) w)
      = (pyStartsWith (pyLower paragraph) "no title found"
          || pyStartsWith (pyLower paragraph) "no author found"
          || NOT_CHAPTER.any (fun w => pyStartsWith (pyLower paragraph) w))
    have h1 : pyLower "no title found" = "no title found" := by decide
    have h2 : pyLower "no author found" = "no author found" := by decide
    rw [h1, h2]
    exact any_const_or NOT_CHAPTER
      (pyStartsWith (pyLower paragraph) "no title found"
        || pyStartsWith (pyLower paragraph) "no author found")
      (fun w => pyStartsWith (pyLower paragraph) w) (by decide)
  · intro line title
    by_cases hA : pyStartsWith line title
    · simp [is_header, hA]
    · by_cases hB : pyEndsWith line title
      · simp [is_header, hA, hB]
      · simp [is_header, hA, hB]

/-- Claim C9: `run_ocr` on an empty image list returns the empty string
whatever the service would answer; on a non-empty list it returns the
recognised text of a successful non-refusal answer, and degrades to
the empty string when the service reports "No text found", when every
attempt up to the retry bound is a refusal (the initial call plus
three retries, the retry counter stopping at 3), or when the call
errors or returns no content. -/
theorem run_ocr_contract :
    (∀ (oracle : Nat → OcrResponse) (retry : Nat), run_ocr oracle [] retry = "")
    ∧ (∀ (oracle : Nat → OcrResponse) (images : List String) (answer : String),
        images ≠ [] → oracle 0 = OcrResponse.ok answer →
        refusal_in answer = false → answer ≠ "No text found" →
        run_ocr oracle images 0 = answer)
    ∧ (∀ (oracle : Nat → OcrResponse) (images : List String),
        oracle 0 = OcrResponse.ok "No text found" →
        run_ocr oracle images 0 = "")
    ∧ (∀ (oracle : Nat → OcrResponse) (images : List String),
        (∀ i, i ≤ 3 →
          ∃ answer, oracle i = OcrResponse.ok answer ∧ refusal_in answer = true) →
        run_ocr oracle images 0 = "")
    ∧ (∀ (oracle : Nat → OcrResponse) (images : List String),
        oracle 0 = OcrResponse.empty → run_ocr oracle images 0 = "")
    ∧ (∀ (oracle : Nat → OcrResponse) (images : List String),
        oracle 0 = OcrResponse.failed → run_ocr oracle images 0 = "") := by
  refine ⟨fun _ _ => rfl, ?_, ?_, ?_, ?_, ?_⟩
  · intro oracle images answer hne hor hrefusal hnotext
    cases images with
    | nil => exact absurd rfl hne
    | cons img rest =>
      simp [run_ocr, runOcrStep, hor, hrefusal, clean_response, hnotext]
  · intro oracle images hor
    cases images with
    | nil => rfl
    | cons img rest =>
      have hr : refusal_in "No text found" = false := by decide
      simp [run_ocr, runOcrStep, hor, hr, clean_response]
  · intro oracle images h
    cases images with
    | nil => rfl
    | cons img rest =>
      obtain ⟨a0, h0, h0r⟩ := h 0 (by omega)
      obtain ⟨a1, h1, h1r⟩ := h 1 (by omega)
      obtain ⟨a2, h2, h2r⟩ := h 2 (by omega)
      obtain ⟨a3, h3, h3r⟩ := h 3 (by omega)
      simp [run_ocr, runOcrStep, h0, h0r, h1, h1r, h2, h2r, h3, h3r]
  · intro oracle images hor
    cases images with
    | nil => rfl
    | cons img rest => simp [run_ocr, runOcrStep, hor]
  · intro oracle images hor
    cases images with
    | nil => rfl
    | cons img rest => simp [run_ocr, runOcrStep, hor]

/-- Witness for the OCR contract at concrete oracles and inputs. -/
theorem run_ocr_contract_witness :
    run_ocr (fun _ => OcrResponse.ok "Lorem ipsum") ["img"] 0 = "Lorem ipsum"
    ∧ run_ocr (fun _ => OcrResponse.ok "No text found") ["img"] 0 = ""
    ∧ run_ocr (fun _ => OcrResponse.ok "I cannot read this") ["img"] 0 = ""
    ∧ run_ocr (fun _ => OcrResponse.empty) ["img"] 0 = ""
    ∧ run_ocr (fun _ => OcrResponse.failed) ["img"] 0 = ""
    ∧ run_ocr (fun _ => OcrResponse.ok "anything") [] 5 = "" :=
  ⟨run_ocr_contract.2.1 _ ["img"] "Lorem ipsum" (by simp) rfl (by decide)
      (by decide),
   run_ocr_contract.2.2.1 _ ["img"] rfl,
   run_ocr_contract.2.2.2.1 _ ["img"]
     (fun i _ => ⟨"I cannot read this", rfl, by decide⟩),
   run_ocr_contract.2.2.2.2.1 _ ["img"] rfl,
   run_ocr_contract.2.2.2.2.2 _ ["img"] rfl,
   run_ocr_contract.1 _ 5⟩

/- ### Roman-numeral loop lemmas -/

/-- Every character accepted by the value table, with its value. -/
theorem romanValue_cases (c : Char) (v : Int) (h : romanValue c = some v) :
    (c = 'I' ∧ v = 1) ∨ (c = 'V' ∧ v = 5) ∨ (c = 'X' ∧ v = 10)
      ∨ (c = 'L' ∧ v = 50) ∨ (c = 'C' ∧ v = 100) ∨ (c = 'D' ∧ v = 500)
      ∨ (c = 'M' ∧ v = 1000) := by
  unfold romanValue at h
  repeat' split at h
  all_goals simp_all

/-- Between two table values, strictly smaller means at most half: the
arithmetic fact behind the positivity of canonical subtraction. -/
theorem roman_sub_bound (pc c : Char) (prev value : Int)
    (hp : romanValue pc = some prev) (hcv : romanValue c = some value)
    (hlt : value < prev) :
    2 * value ≤ prev := by
  rcases romanValue_cases pc prev hp with
    ⟨hc1, hv1⟩|⟨hc1, hv1⟩|⟨hc1, hv1⟩|⟨hc1, hv1⟩|⟨hc1, hv1⟩|⟨hc1, hv1⟩|⟨hc1, hv1⟩ <;>
    rcases romanValue_cases c value hcv with
      ⟨hc2, hv2⟩|⟨hc2, hv2⟩|⟨hc2, hv2⟩|⟨hc2, hv2⟩|⟨hc2, hv2⟩|⟨hc2, hv2⟩|⟨hc2, hv2⟩ <;>
    omega

/-- Positivity invariant of the loop: starting from a state where the
total dominates the non-negative previous value and the previous
character carries that value, any successful result is at least 1. -/
theorem romanLoop_pos :
    ∀ (l : List Char) (total prev : Int) (cc : Nat) (pc : Option Char) (t : Int),
      0 ≤ prev → prev ≤ total →
      (∀ c, pc = some c → romanValue c = some prev) →
      romanLoop l total prev cc pc = some t → 1 ≤ t := by
  intro l
  induction l with
  | nil =>
    intro total prev cc pc t h0 h1 _ hloop
    unfold romanLoop at hloop
    split at hloop
    · exact absurd hloop (by simp)
    · rename_i hz
      have ht : total = t := by injection hloop
      omega
  | cons c rest ih =>
    intro total prev cc pc t h0 h1 hpc hloop
    unfold romanLoop at hloop
    split at hloop
    · exact absurd hloop (by simp)
    · rename_i value hv
      split at hloop
      · exact absurd hloop (by simp)
      · split at hloop
        · rename_i hcc hle
          have hvpos : 1 ≤ value := by
            rcases romanValue_cases c value hv with
              ⟨_, h⟩|⟨_, h⟩|⟨_, h⟩|⟨_, h⟩|⟨_, h⟩|⟨_, h⟩|⟨_, h⟩ <;> omega
          exact ih (total + value) value _ (some c) t (by omega) (by omega)
            (fun c' hc' => by
              injection hc' with hc'
              subst hc'
              exact hv) hloop
        · rename_i hcc hnle
          split at hloop
          · exact absurd hloop (by simp)
          · rename_i pc'
            have hprev : romanValue pc' = some prev := hpc pc' rfl
            split at hloop
            · exact absurd hloop (by simp)
            · split at hloop
              · exact absurd hloop (by simp)
              · split at hloop
                · exact absurd hloop (by simp)
                · rename_i hb1 hb2 hb3
                  have hvpos : 1 ≤ value := by
                    rcases romanValue_cases c value hv with
                      ⟨_, h⟩|⟨_, h⟩|⟨_, h⟩|⟨_, h⟩|⟨_, h⟩|⟨_, h⟩|⟨_, h⟩ <;> omega
                  have hbound : 2 * value ≤ prev :=
                    roman_sub_bound pc' c prev value hprev hv (by omega)
                  exact ih (total - value) value _ (some c) t (by omega) (by omega)
                    (fun c' hc' => by
                      injection hc' with hc'
                      subst hc'
                      exact hv) hloop

/-- Claim C10: whenever `roman_to_int` returns a value instead of
signalling invalid, the value is strictly positive, so every string
accepted by `is_roman_numeral` denotes a numeral of value at least 1. -/
theorem roman_to_int_positive :
    (∀ (s : String) (t : Int), roman_to_int s = some t → 1 ≤ t)
    ∧ (∀ s : String, is_roman_numeral s = true →
        ∃ t, roman_to_int s = some t ∧ 1 ≤ t) := by
  have main : ∀ (s : String) (t : Int), roman_to_int s = some t → 1 ≤ t := by
    intro s t h
    unfold roman_to_int at h
    split at h
    · exact absurd h (by simp)
    · exact romanLoop_pos _ 0 0 1 none t le_rfl le_rfl
        (fun c hc => by simp at hc) h
  refine ⟨main, ?_⟩
  intro s hs
  obtain ⟨t, ht⟩ := Option.isSome_iff_exists.mp hs
  exact ⟨t, ht, main s t ht⟩

/-- Witness for the positivity of accepted Roman numerals at
"MCMXCIX". -/
theorem roman_to_int_positive_witness :
    (1 : Int) ≤ 1999 ∧ ∃ t, roman_to_int "MCMXCIX" = some t ∧ 1 ≤ t :=
  ⟨roman_to_int_positive.1 "MCMXCIX" 1999 (by decide),
   roman_to_int_positive.2 "MCMXCIX" (by decide)⟩

/-- One loop step either rejects or recurses on the tail with the
current character recorded and a consecutive count within the bound. -/
theorem romanLoop_step (c : Char) (rest : List Char) (total prev : Int)
    (cc : Nat) (pc : Option Char) :
    romanLoop (c :: rest) total prev cc pc = none
    ∨ ∃ value total' : Int,
        romanValue c = some value
        ∧ nextCount pc c cc ≤ 3
        ∧ romanLoop (c :: rest) total prev cc pc
            = romanLoop rest total' value (nextCount pc c cc) (some c) := by
  cases hv : romanValue c with
  | none =>
    left
    simp [romanLoop, hv]
  | some value =>
    by_cases h3 : nextCount pc c cc > 3
    · left
      simp [romanLoop, hv, h3]
    · by_cases hle : prev ≤ value
      · right
        exact ⟨value, total + value, rfl, by omega,
          by simp [romanLoop, hv, h3, hle]⟩
      · cases pc with
        | none =>
          left
          simp [romanLoop, hv, h3, hle]
        | some pc' =>
          by_cases hb1 : (pc' = 'V' ∨ pc' = 'X') ∧ ¬c = 'I'
          · left
            simp [romanLoop, hv, h3, hle, hb1]
          · by_cases hb2 : (pc' = 'L' ∨ pc' = 'C') ∧ ¬c = 'X'
            · left
              simp [romanLoop, hv, h3, hle, hb1, hb2]
            · by_cases hb3 : (pc' = 'D' ∨ pc' = 'M') ∧ ¬c = 'C'
              · left
                simp [romanLoop, hv, h3, hle, hb1, hb2, hb3]
              · right
                exact ⟨value, total - value, rfl, by omega,
                  by simp [romanLoop, hv, h3, hle, hb1, hb2, hb3]⟩

/-- A suffix on which the loop always rejects makes the whole list
reject, whatever prefix runs before it. -/
theorem romanLoop_extend (l1 suffix : List Char)
    (hsuf : ∀ (total prev : Int) (cc : Nat) (pc : Option Char),
      romanLoop suffix total prev cc pc = none) :
    ∀ (total prev : Int) (cc : Nat) (pc : Option Char),
      romanLoop (l1 ++ suffix) total prev cc pc = none := by
  induction l1 with
  | nil => simpa using hsuf
  | cons d l1' ih =>
    intro total prev cc pc
    show romanLoop (d :: (l1' ++ suffix)) total prev cc pc = none
    rcases romanLoop_step d (l1' ++ suffix) total prev cc pc with
      h | ⟨v, t', hv, hcc, heq⟩
    · exact h
    · rw [heq]
      exact ih _ _ _ _

/-- A character outside the value table anywhere in the scanned list
makes the loop reject. -/
theorem romanLoop_badchar (l : List Char) (c : Char) (hc : c ∈ l)
    (hv : romanValue c = none) :
    ∀ (total prev : Int) (cc : Nat) (pc : Option Char),
      romanLoop l total prev cc pc = none := by
  obtain ⟨s, t, rfl⟩ := List.append_of_mem hc
  refine romanLoop_extend s (c :: t) ?_
  intro total prev cc pc
  simp [romanLoop, hv]

/-- Four equal consecutive characters make the loop reject: by the
fourth, the consecutive count exceeds three. -/
theorem romanLoop_run4 (c : Char) (l2 : List Char) :
    ∀ (total prev : Int) (cc : Nat) (pc : Option Char),
      romanLoop (c :: c :: c :: c :: l2) total prev cc pc = none := by
  intro total prev cc pc
  rcases romanLoop_step c (c :: c :: c :: l2) total prev cc pc with
    h | ⟨v1, t1, hv1, hc1, he1⟩
  · exact h
  rw [he1]
  rcases romanLoop_step c (c :: c :: l2) t1 v1 (nextCount pc c cc) (some c) with
    h | ⟨v2, t2, hv2, hc2, he2⟩
  · exact h
  rw [he2]
  rcases romanLoop_step c (c :: l2) t2 v2
      (nextCount (some c) c (nextCount pc c cc)) (some c) with
    h | ⟨v3, t3, hv3, hc3, he3⟩
  · exact h
  rw [he3]
  rcases romanLoop_step c l2 t3 v3
      (nextCount (some c) c (nextCount (some c) c (nextCount pc c cc)))
      (some c) with
    h | ⟨v4, t4, hv4, hc4, he4⟩
  · exact h
  exfalso
  have e1 : 1 ≤ nextCount pc c cc := by
    unfold nextCount
    split <;> omega
  have e2 : ∀ n, nextCount (some c) c n = n + 1 := by
    intro n
    simp [nextCount]
  simp only [e2] at hc4
  omega

/-- An ascending non-canonical pair always trips one of the three
rejection tests of the subtraction branch. -/
theorem noncanonical_rejects (x y : Char) (vx vy : Int)
    (hx : romanValue x = some vx) (hy : romanValue y = some vy)
    (hlt : vx < vy) (hnc : ¬canonicalPair x y) :
    ((y = 'V' ∨ y = 'X') ∧ ¬x = 'I') ∨ ((y = 'L' ∨ y = 'C') ∧ ¬x = 'X')
      ∨ ((y = 'D' ∨ y = 'M') ∧ ¬x = 'C') := by
  rcases romanValue_cases x vx hx with
    ⟨hc1, hv1⟩|⟨hc1, hv1⟩|⟨hc1, hv1⟩|⟨hc1, hv1⟩|⟨hc1, hv1⟩|⟨hc1, hv1⟩|⟨hc1, hv1⟩ <;>
    rcases romanValue_cases y vy hy with
      ⟨hc2, hv2⟩|⟨hc2, hv2⟩|⟨hc2, hv2⟩|⟨hc2, hv2⟩|⟨hc2, hv2⟩|⟨hc2, hv2⟩|⟨hc2, hv2⟩ <;>
    subst hc1 <;> subst hc2 <;> subst hv1 <;> subst hv2 <;>
    first
      | (exfalso; omega)
      | decide
      | (exfalso; apply hnc; decide)

/-- A smaller value directly before a larger one that is not a
canonical subtractive pair makes the loop reject (in the reversed scan
the larger character arrives first). -/
theorem romanLoop_badpair (y x : Char) (vx vy : Int) (l2 : List Char)
    (hx : romanValue x = some vx) (hy : romanValue y = some vy)
    (hlt : vx < vy) (hnc : ¬canonicalPair x y) :
    ∀ (total prev : Int) (cc : Nat) (pc : Option Char),
      romanLoop (y :: x :: l2) total prev cc pc = none := by
  intro total prev cc pc
  rcases romanLoop_step y (x :: l2) total prev cc pc with
    h | ⟨vy', t', hvy', hcc, heq⟩
  · exact h
  rw [heq]
  have hvv : vy = vy' := by
    injection hy.symm.trans hvy'
  subst hvv
  by_cases h3 : nextCount (some y) x (nextCount pc y cc) > 3
  · simp [romanLoop, hx, h3]
  · have hnle : ¬vy ≤ vx := by omega
    by_cases hb1 : (y = 'V' ∨ y = 'X') ∧ ¬x = 'I'
    · simp [romanLoop, hx, h3, hnle, hb1]
    · by_cases hb2 : (y = 'L' ∨ y = 'C') ∧ ¬x = 'X'
      · simp [romanLoop, hx, h3, hnle, hb1, hb2]
      · by_cases hb3 : (y = 'D' ∨ y = 'M') ∧ ¬x = 'C'
        · simp [romanLoop, hx, h3, hnle, hb1, hb2, hb3]
        · rcases noncanonical_rejects x y vx vy hx hy hlt hnc with h | h | h
          · exact absurd h hb1
          · exact absurd h hb2
          · exact absurd h hb3


/-- Characters outside the alphabet have no table value. -/
theorem romanValue_eq_none (c : Char) (h : romanChars.contains c = false) :
    romanValue c = none := by
  have h' : ¬c ∈ romanChars := by simpa using h
  simp only [romanChars, List.mem_cons, List.not_mem_nil, or_false,
    not_or] at h'
  obtain ⟨n1, n2, n3, n4, n5, n6, n7⟩ := h'
  simp [romanValue, n1, n2, n3, n4, n5, n6, n7]

/-- Claim C6 counterexample: `roman_to_int` upper-cases its input
before validating, so the lower-case string "i" — whose only character
lies outside {I, V, X, L, C, D, M} — is not rejected but evaluates to
1, refuting the claim that every string containing a character outside
that set is invalid. -/
theorem roman_lowercase_accepted_cex :
    roman_to_int "i" = some 1 ∧ romanChars.contains 'i' = false := by decide

/-- Claim C6 amended: "MCMXCIX" evaluates to 1999, and `roman_to_int`
signals invalid whenever the upper-cased input contains a character
outside {I, V, X, L, C, D, M}, contains V, L or D more than once,
contains more than three consecutive repeats of one character,
contains a smaller value directly before a larger one that is not a
canonical subtractive pair, or totals zero — in particular "IIII",
"VV", "VX" and "" are rejected.  (The claim as frozen omitted the
upper-casing, which the counterexample "i" forces.) -/
theorem roman_to_int_validation :
    roman_to_int "MCMXCIX" = some 1999
    ∧ roman_to_int "IIII" = none
    ∧ roman_to_int "VV" = none
    ∧ roman_to_int "VX" = none
    ∧ roman_to_int "" = none
    ∧ (∀ s : String,
        (∃ c ∈ (pyUpper s).data, romanChars.contains c = false) →
        roman_to_int s = none)
    ∧ (∀ s : String,
        (1 < (pyUpper s).data.count 'V' ∨ 1 < (pyUpper s).data.count 'L'
          ∨ 1 < (pyUpper s).data.count 'D') →
        roman_to_int s = none)
    ∧ (∀ (s : String) (c : Char) (l1 l2 : List Char),
        (pyUpper s).data = l1 ++ c :: c :: c :: c :: l2 →
        roman_to_int s = none)
    ∧ (∀ (s : String) (x y : Char) (vx vy : Int) (l1 l2 : List Char),
        (pyUpper s).data = l1 ++ x :: y :: l2 →
        romanValue x = some vx → romanValue y = some vy → vx < vy →
        ¬canonicalPair x y → roman_to_int s = none)
    ∧ (∀ (s : String) (t : Int), roman_to_int s = some t → t ≠ 0) := by
  refine ⟨by decide, by decide, by decide, by decide, by decide,
    ?_, ?_, ?_, ?_, ?_⟩
  · intro s hex
    obtain ⟨c, hmem, hval⟩ := hex
    unfold roman_to_int
    split
    · rfl
    · exact romanLoop_badchar _ c (by simpa using hmem)
        (romanValue_eq_none c hval) 0 0 1 none
  · intro s hcount
    unfold roman_to_int
    rw [if_pos hcount]
  · intro s c l1 l2 hsplit
    unfold roman_to_int
    split
    · rfl
    · rw [hsplit, List.reverse_append]
      have h4 : (c :: c :: c :: c :: l2).reverse = l2.reverse ++ [c, c, c, c] := by
        simp
      rw [h4, List.append_assoc]
      refine romanLoop_extend _ _ ?_ 0 0 1 none
      intro total prev cc pc
      show romanLoop (c :: c :: c :: c :: l1.reverse) total prev cc pc = none
      exact romanLoop_run4 c l1.reverse total prev cc pc
  · intro s x y vx vy l1 l2 hsplit hx hy hlt hnc
    unfold roman_to_int
    split
    · rfl
    · rw [hsplit, List.reverse_append]
      have h2 : (x :: y :: l2).reverse = l2.reverse ++ [y, x] := by simp
      rw [h2, List.append_assoc]
      refine romanLoop_extend _ _ ?_ 0 0 1 none
      intro total prev cc pc
      show romanLoop (y :: x :: l1.reverse) total prev cc pc = none
      exact romanLoop_badpair y x vx vy l1.reverse hx hy hlt hnc total prev cc pc
  · intro s t h
    unfold roman_to_int at h
    split at h
    · exact absurd h (by simp)
    · have := romanLoop_pos _ 0 0 1 none t le_rfl le_rfl
        (fun c hc => by simp at hc) h
      omega

/-- Witness for the amended Roman validation at concrete inputs: a
character outside the alphabet ("AB"), a repeated V ("VIV"), a run of
four ("XXXX"), a non-canonical ascending pair ("IC"), and the nonzero
value of "MCMXCIX". -/
theorem roman_to_int_validation_witness :
    roman_to_int "AB" = none
    ∧ roman_to_int "VIV" = none
    ∧ roman_to_int "XXXX" = none
    ∧ roman_to_int "IC" = none
    ∧ (1999 : Int) ≠ 0 :=
  ⟨roman_to_int_validation.2.2.2.2.2.1 "AB" ⟨'A', by decide, by decide⟩,
   roman_to_int_validation.2.2.2.2.2.2.1 "VIV" (by decide),
   roman_to_int_validation.2.2.2.2.2.2.2.1 "XXXX" 'X' [] [] (by decide),
   roman_to_int_validation.2.2.2.2.2.2.2.2.1 "IC" 'I' 'C' 1 100 [] []
     (by decide) (by decide) (by decide) (by decide) (by decide),
   roman_to_int_validation.2.2.2.2.2.2.2.2.2 "MCMXCIX" 1999 (by decide)⟩
